import Mathlib

/-!
Shallow embedding of the webgl-showcase runtime core, translated from the
TypeScript source: the quality-preset resolver (`src/gl/core/qualityPresets`),
the frame-loop delta clamp and resize handler (`DemoCanvas`), the ping-pong
double buffer (`pingPong.ts`), the shader compile/link helpers (`shader.ts`),
the stats tracker (`stats.ts`), and the demo-loader lifecycle of the
`DemoCanvas` effect.  Numbers that are JS doubles holding small decimals or
counts are modelled as `ℚ` / `ℕ`; GPU handles are modelled by counting the
objects alive.
-/

namespace WebglShowcase

/-! ## Quality presets (`src/gl/core/qualityPresets.ts`) -/

/-- Source `export type QualityLevel = 'low' | 'medium' | 'high' | 'ultra'` -/
inductive QualityLevel
  | low
  | medium
  | high
  | ultra
deriving DecidableEq, Repr

/-- Source `shaderComplexity: 'low' | 'medium' | 'high'` -/
inductive ShaderComplexity
  | low
  | medium
  | high
deriving DecidableEq, Repr

/-- Source `interface QualityPreset` from `core/types`. -/
structure QualityPreset where
  name : String
  resolution : ℚ
  particleMultiplier : ℚ
  instanceMultiplier : ℚ
  shaderComplexity : ShaderComplexity
  postprocessEnabled : Bool
deriving DecidableEq, Repr

/-- The ambient browser state the module can observe: whether `window`
exists and the value `window.devicePixelRatio` has at that instant. -/
structure BrowserEnv where
  hasWindow : Bool
  dpr : ℚ
deriving DecidableEq, Repr

/-- The table `QUALITY_PRESETS`.  The `ultra` entry evaluates
`typeof window !== 'undefined' ? window.devicePixelRatio : 2` once, at module
load, so the table is a function of the load-time environment. -/
def QUALITY_PRESETS (loadEnv : BrowserEnv) : QualityLevel → QualityPreset
  | .low =>
    { name := "Low", resolution := 1/2, particleMultiplier := 1/4,
      instanceMultiplier := 1/4, shaderComplexity := .low,
      postprocessEnabled := false }
  | .medium =>
    { name := "Medium", resolution := 3/4, particleMultiplier := 1/2,
      instanceMultiplier := 1/2, shaderComplexity := .medium,
      postprocessEnabled := true }
  | .high =>
    { name := "High", resolution := 1, particleMultiplier := 1,
      instanceMultiplier := 1, shaderComplexity := .high,
      postprocessEnabled := true }
  | .ultra =>
    { name := "Ultra",
      resolution := if loadEnv.hasWindow then loadEnv.dpr else 2,
      particleMultiplier := 3/2, instanceMultiplier := 3/2,
      shaderComplexity := .high, postprocessEnabled := true }

/-- Embeds `getQualityPreset(level)` — a lookup in the load-time table. -/
def getQualityPreset (loadEnv : BrowserEnv) (level : QualityLevel) :
    QualityPreset :=
  QUALITY_PRESETS loadEnv level

/-- Embeds `getResolutionMultiplier(level)`: for `'ultra'` it re-reads
`window.devicePixelRatio` at call time (`callEnv`); otherwise it returns the
preset's stored `resolution`. -/
def getResolutionMultiplier (loadEnv callEnv : BrowserEnv)
    (level : QualityLevel) : ℚ :=
  if level = .ultra ∧ callEnv.hasWindow then callEnv.dpr
  else (QUALITY_PRESETS loadEnv level).resolution

/-! ## Frame-loop delta clamp (`DemoCanvas.renderLoop`) -/

/-- Embeds `deltaTime: Math.min((now - lastTime) / 1000, 0.1)` — the context field
built each tick from milliseconds timestamps. -/
def contextDeltaTime (nowMs lastMs : ℚ) : ℚ :=
  min ((nowMs - lastMs) / 1000) (1/10)

/-! ## Ping-pong double buffer (`PingPongDemo`, `pingPong.ts`)

`currentFbo` is a number field holding 0 or 1.  In each simulation iteration
(`render`, lines 303-321):
  `readFbo  = currentFbo === 0 ? fbo1 : fbo2`
  `writeFbo = currentFbo === 0 ? fbo2 : fbo1`
then after the draw `currentFbo = 1 - currentFbo`.  After the loop the
displayed texture is `currentFbo === 0 ? fbo1 : fbo2`.  We index `fbo1` as 0
and `fbo2` as 1. -/

/-- Index of the FBO read by a simulation iteration (`readFbo`). -/
def readFboIndex (currentFbo : ℕ) : ℕ :=
  if currentFbo = 0 then 0 else 1

/-- Index of the FBO written by a simulation iteration (`writeFbo`). -/
def writeFboIndex (currentFbo : ℕ) : ℕ :=
  if currentFbo = 0 then 1 else 0

/-- Embeds `this.currentFbo = 1 - this.currentFbo` — the flip at the end of each
iteration. -/
def swapFbo (currentFbo : ℕ) : ℕ :=
  1 - currentFbo

/-- Value of `currentFbo` after `n` iterations starting from the `initFBOs` value 0. -/
def currentFboAfter : ℕ → ℕ
  | 0 => 0
  | n + 1 => swapFbo (currentFboAfter n)

/-- Index of the FBO the display pass samples (`displayFbo`,
line 329) given the `currentFbo` value after the simulation loop. -/
def displayFboIndex (currentFbo : ℕ) : ℕ :=
  if currentFbo = 0 then 0 else 1

/-! ## Stats tracker (`StatsTracker`, `src/gl/core/stats.ts`) -/

/-- The mutable fields of `StatsTracker`.  `hasTimer` stands for
`timerExt !== null` (the `EXT_disjoint_timer_query_webgl2` lookup in the
constructor); the query object exists exactly when the extension does. -/
structure StatsTracker where
  hasTimer : Bool
  fps : ℚ
  frameTime : ℚ
  lastFrameTime : ℚ
  drawCalls : ℕ
  triangles : ℕ
  instances : ℕ
  particles : ℕ
  gpuTime : ℚ
  queryInProgress : Bool
deriving DecidableEq, Repr

namespace StatsTracker

/-- The constructor: counters at their initial values, `timerExt` as probed
from the context. -/
def mk0 (extPresent : Bool) : StatsTracker :=
  { hasTimer := extPresent, fps := 60, frameTime := 1667/100,
    lastFrameTime := 0, drawCalls := 0, triangles := 0, instances := 0,
    particles := 0, gpuTime := 0, queryInProgress := false }

/-- Embeds `beginFrame()`: reset the per-frame counters; begin a GPU query when the
extension is present and none is in flight. -/
def beginFrame (s : StatsTracker) : StatsTracker :=
  let s := { s with drawCalls := 0, triangles := 0, instances := 0,
                    particles := 0 }
  if s.hasTimer ∧ ¬s.queryInProgress then { s with queryInProgress := true }
  else s

/-- Embeds `endFrame()`.  Here `nowMs` is `performance.now()`; `available`, `disjoint`
and `timeElapsedNs` are what the GL query readback reports this frame. -/
def endFrame (s : StatsTracker) (nowMs : ℚ) (available disjoint : Bool)
    (timeElapsedNs : ℚ) : StatsTracker :=
  let delta := nowMs - s.lastFrameTime
  let s :=
    if 0 < delta then
      { s with fps := s.fps * (95/100) + (1000 / delta) * (5/100),
               frameTime := s.frameTime * (95/100) + delta * (5/100) }
    else s
  let s := { s with lastFrameTime := nowMs }
  if s.hasTimer ∧ s.queryInProgress then
    let s := { s with queryInProgress := false }
    if available ∧ ¬disjoint then
      { s with gpuTime := s.gpuTime * (95/100)
                          + (timeElapsedNs / 1000000) * (5/100) }
    else s
  else s

/-- Embeds `recordDrawCall(triangleCount, instanceCount = 1)`. -/
def recordDrawCall (s : StatsTracker) (triangleCount : ℕ)
    (instanceCount : ℕ := 1) : StatsTracker :=
  let s := { s with drawCalls := s.drawCalls + 1,
                    triangles := s.triangles + triangleCount * instanceCount }
  if 1 < instanceCount then { s with instances := s.instances + instanceCount }
  else s

/-- Embeds `recordParticles(count)`. -/
def recordParticles (s : StatsTracker) (count : ℕ) : StatsTracker :=
  { s with particles := count }

end StatsTracker

/-- Embeds `Math.round(x * 100) / 100` (JS `Math.round` is `⌊x + 1/2⌋`, which is
what Mathlib's `round` computes on `ℚ`). -/
def roundTo2 (x : ℚ) : ℚ :=
  (round (x * 100) : ℤ) / 100

/-- Source `interface DemoStats` from `core/types`: the optional fields are
`Option`s, `undefined` being `none`. -/
structure DemoStats where
  fps : ℤ
  frameTime : ℚ
  drawCalls : ℕ
  triangles : ℕ
  instances : Option ℕ
  particles : Option ℕ
  gpuTime : Option ℚ
deriving DecidableEq, Repr

namespace StatsTracker

/-- Embeds `getStats()`. -/
def getStats (s : StatsTracker) : DemoStats :=
  { fps := round s.fps,
    frameTime := roundTo2 s.frameTime,
    drawCalls := s.drawCalls,
    triangles := s.triangles,
    instances := if 0 < s.instances then some s.instances else none,
    particles := if 0 < s.particles then some s.particles else none,
    gpuTime := if s.hasTimer then some (roundTo2 s.gpuTime) else none }

end StatsTracker

/-- One externally driven call on a `StatsTracker`, with the ambient inputs
(`performance.now()`, query readback) each call observes. -/
inductive StatsOp
  | beginFrame
  | endFrame (nowMs : ℚ) (available disjoint : Bool) (timeElapsedNs : ℚ)
  | recordDrawCall (triangleCount instanceCount : ℕ)
  | recordParticles (count : ℕ)
deriving DecidableEq, Repr

/-- Run a sequence of tracker calls. -/
def applyStatsOps (s : StatsTracker) : List StatsOp → StatsTracker
  | [] => s
  | op :: rest =>
    let s' := match op with
      | .beginFrame => s.beginFrame
      | .endFrame now av dj t => s.endFrame now av dj t
      | .recordDrawCall tri inst => s.recordDrawCall tri inst
      | .recordParticles n => s.recordParticles n
    applyStatsOps s' rest

/-! ## Shader compilation and linking (`src/gl/core/shader.ts`)

The GL driver's answers are modelled as a record of pure facts (whether each
`create*` returns an object, whether each compile/link succeeds, and the info
logs), and the GPU objects alive are counted so that leaks are visible.  The
thrown `Error` messages are reproduced verbatim. -/

/-- The driver behaviour `createShader`/`createProgram` can observe. -/
structure GlDriver where
  shaderCreateOk : Bool
  vertexCompileOk : Bool
  fragmentCompileOk : Bool
  vertexLog : String
  fragmentLog : String
  programCreateOk : Bool
  linkOk : Bool
  linkLog : String
deriving DecidableEq, Repr

/-- Count of GL objects currently alive (created and not yet deleted). -/
structure GlObjects where
  shadersAlive : ℕ
  programsAlive : ℕ
deriving DecidableEq, Repr

/-- The `gl.VERTEX_SHADER` vs `gl.FRAGMENT_SHADER` argument of `createShader`. -/
inductive ShaderKind
  | vertex
  | fragment
deriving DecidableEq, Repr

/-- Embeds `createShader(gl, type, source)` (`shader.ts` lines 10-30).  On failure it
returns the thrown `Error` message together with the objects still alive at
the throw; on success, the updated object census. -/
def createShader (drv : GlDriver) (kind : ShaderKind) (objs : GlObjects) :
    Except (String × GlObjects) GlObjects :=
  if ¬drv.shaderCreateOk then
    .error ("Failed to create shader", objs)
  else
    let objs1 : GlObjects := { objs with shadersAlive := objs.shadersAlive + 1 }
    let compiled := match kind with
      | .vertex => drv.vertexCompileOk
      | .fragment => drv.fragmentCompileOk
    let info := match kind with
      | .vertex => drv.vertexLog
      | .fragment => drv.fragmentLog
    if compiled then
      .ok objs1
    else
      -- `gl.deleteShader(shader); throw ...`
      .error ("Shader compilation error: " ++ info,
              { objs1 with shadersAlive := objs1.shadersAlive - 1 })

/-- Embeds `createProgram(gl, vertexSource, fragmentSource, tfVaryings?)`
(`shader.ts` lines 35-76), starting from no objects alive.  Follows the
source line by line: compile vertex, compile fragment, create the program,
link, delete both shaders, check link status. -/
def createProgram (drv : GlDriver) : Except (String × GlObjects) GlObjects :=
  match createShader drv .vertex ⟨0, 0⟩ with
  | .error e => .error e
  | .ok o1 =>
    -- note: on a fragment-compile failure `createShader` only deletes the
    -- fragment shader; the vertex shader in `o1` stays alive.
    match createShader drv .fragment o1 with
    | .error e => .error e
    | .ok o2 =>
      if ¬drv.programCreateOk then
        -- `gl.deleteShader(vertexShader); gl.deleteShader(fragmentShader)`
        .error ("Failed to create program",
                { o2 with shadersAlive := o2.shadersAlive - 2 })
      else
        let o3 : GlObjects := { o2 with programsAlive := o2.programsAlive + 1 }
        -- `gl.linkProgram`; then both shaders are deleted unconditionally
        let o4 : GlObjects := { o3 with shadersAlive := o3.shadersAlive - 2 }
        if ¬drv.linkOk then
          .error ("Program linking error: " ++ drv.linkLog,
                  { o4 with programsAlive := o4.programsAlive - 1 })
        else
          .ok o4

/-! ## Resize path (`DemoCanvas.handleResize` and `PortalRTTDemo.resize`) -/

/-- Computes `|a - b|` on JS numbers holding naturals. -/
def absDiff (a b : ℕ) : ℕ :=
  max a b - min a b

/-- The portal demo's fields touched by `resize`: `fboSize` (initially 512),
whether `this.fbo` exists, the attached storage dimensions, and a count of
storage reallocations (`resizeFramebuffer` → `resizeTexture` → `texImage2D`
reallocates the colour texture's storage in place). -/
structure PortalRTTState where
  fboSize : ℕ
  hasFbo : Bool
  fboWidth : ℕ
  fboHeight : ℕ
  reallocCount : ℕ
deriving DecidableEq, Repr

/-- Embeds `PortalRTTDemo.resize(width, height, _dpr)` (`part_003` lines 451-457):
`newFboSize = Math.min(Math.max(width, height), 1024)`; when it differs from
the stored size by more than 100 and the FBO exists, the framebuffer's
texture storage is reallocated at the new size. -/
def portalResize (d : PortalRTTState) (width height : ℕ) : PortalRTTState :=
  let newFboSize := min (max width height) 1024
  if 100 < absDiff newFboSize d.fboSize ∧ d.hasFbo then
    { d with fboSize := newFboSize, fboWidth := newFboSize,
             fboHeight := newFboSize,
             reallocCount := d.reallocCount + 1 }
  else d

/-- The canvas-side state `handleResize` reads and writes. -/
structure CanvasState where
  canvasWidth : ℕ
  canvasHeight : ℕ
  demo : PortalRTTState
deriving DecidableEq, Repr

/-- Embeds `Math.floor` of a nonnegative rational, as a natural. -/
def floorNat (x : ℚ) : ℕ :=
  (Int.toNat ⌊x⌋)

/-- Embeds `DemoCanvas.handleResize` (`part_012` lines 101-124) specialised to an
active `PortalRTTDemo`: compute the device-pixel size from the container
rect, and when it differs from the canvas's current size, update the canvas
and forward `resize(width, height, dpr)` to the demo.  No branch throws. -/
def handleResize (loadEnv callEnv : BrowserEnv) (quality : QualityLevel)
    (windowDpr : ℚ) (rectWidth rectHeight : ℚ) (st : CanvasState) :
    CanvasState :=
  let resolutionMult := getResolutionMultiplier loadEnv callEnv quality
  let dpr := min resolutionMult windowDpr
  let width := floorNat (rectWidth * dpr)
  let height := floorNat (rectHeight * dpr)
  if st.canvasWidth ≠ width ∨ st.canvasHeight ≠ height then
    { canvasWidth := width, canvasHeight := height,
      demo := portalResize st.demo width height }
  else st

/-! ## Demo-loader lifecycle (`DemoCanvas` effect, `part_012` lines 126-191)

The load effect is single-threaded JS with exactly two suspension points in
`initDemo`: `await loadDemo(...)` and `await demo.init()`.  Each run of the
effect is an *attempt* with its own `cancelled` flag; the effect cleanup sets
that flag, cancels the animation frame, and destroys the instance currently
held in `demoRef`.  Instances are identified by allocation order; `destroys`
and `renders` count the lifecycle calls each instance has received. -/

/-- Where an `initDemo` coroutine is suspended. -/
inductive Stage
  | awaitLoad
  | awaitInit (inst : ℕ)
  | finished
deriving DecidableEq, Repr

/-- One run of the load effect: its closure's `cancelled` flag and the point
its `initDemo` has reached. -/
structure Attempt where
  cancelled : Bool
  stage : Stage
deriving DecidableEq, Repr

/-- The component's state: `demoRef`, the fresh-instance counter, the load
attempts indexed in start order (`attempt k` is meaningful for
`k < numAttempts`; unstarted indices hold the inert `⟨true, finished⟩`), and
per-instance lifecycle call counts. -/
structure Sys where
  demoRef : Option ℕ
  nextId : ℕ
  numAttempts : ℕ
  attempt : ℕ → Attempt
  destroys : ℕ → ℕ
  renders : ℕ → ℕ

/-- Increment a per-instance counter at `i`. -/
def bump (f : ℕ → ℕ) (i : ℕ) : ℕ → ℕ :=
  fun j => if j = i then f j + 1 else f j

/-- The events the host can deliver, in any single-threaded interleaving:
a new effect run (selection change), resumption of a suspended `initDemo`
at either await (with the outcome the promise produced), and an animation
frame. -/
inductive Ev
  | startLoad
  | resolveLoad (k : ℕ) (found : Bool)
  | resolveInit (k : ℕ) (success : Bool)
  | frame
deriving DecidableEq, Repr

/-- Event `startLoad`: the old effect's cleanup (`cancelled = true;
cancelAnimationFrame(...); demoRef.current?.destroy(); demoRef.current =
null`) followed by the new effect running `initDemo` up to `await loadDemo`
(its opening `demoRef` check sees `null`).  Only the latest effect's
`cancelled` variable can still be false — every earlier cleanup already set
its own — so marking all existing attempts cancelled coincides with the
source. -/
def stepStartLoad (s : Sys) : Sys :=
  { demoRef := none
    nextId := s.nextId
    numAttempts := s.numAttempts + 1
    attempt := fun k =>
      if k = s.numAttempts then ⟨false, .awaitLoad⟩
      else { s.attempt k with cancelled := true }
    destroys := match s.demoRef with
      | some i => bump s.destroys i
      | none => s.destroys
    renders := s.renders }

/-- Overwrite attempt `k`'s stage, keeping its `cancelled` flag. -/
def setStage (s : Sys) (k : ℕ) (st : Stage) : ℕ → Attempt :=
  fun q => if q = k then { s.attempt k with stage := st } else s.attempt q

/-- Event `resolveLoad k found`: the `await loadDemo(...)` of attempt `k` resumes,
`found` telling whether the registry produced an entry.
`if (cancelled || !entry || !glRef.current) return;` — otherwise
`entry.factory(...)` constructs a fresh instance and `await demo.init()`
suspends. -/
def stepResolveLoad (s : Sys) (k : ℕ) (found : Bool) : Sys :=
  if k < s.numAttempts then
    match (s.attempt k).stage with
    | Stage.awaitLoad =>
      if (s.attempt k).cancelled || !found then
        { s with attempt := setStage s k .finished }
      else
        { s with
          nextId := s.nextId + 1
          attempt := setStage s k (.awaitInit s.nextId) }
    | _ => s
  else s

/-- Event `resolveInit k success`: the `await demo.init()` of attempt `k` resumes.
On fulfilment with a stale flag: `demo.destroy(); return`.  On fulfilment
while still current: the instance is attached (`demoRef.current = demo`,
initial resize, RAF started).  On rejection the `catch` only logs — the
constructed instance is *not* destroyed there. -/
def stepResolveInit (s : Sys) (k : ℕ) (success : Bool) : Sys :=
  if k < s.numAttempts then
    match (s.attempt k).stage with
    | Stage.awaitInit i =>
      if success then
        if (s.attempt k).cancelled then
          { s with
            attempt := setStage s k .finished
            destroys := bump s.destroys i }
        else
          { s with
            demoRef := some i
            attempt := setStage s k .finished }
      else
        { s with attempt := setStage s k .finished }
    | _ => s
  else s

/-- Event `frame`: `renderLoop` renders `demoRef.current` when it exists
(`if (!demoRef.current || ...) return; ... demoRef.current.render(ctx)`). -/
def stepFrame (s : Sys) : Sys :=
  match s.demoRef with
  | some i => { s with renders := bump s.renders i }
  | none => s

/-- One step of the lifecycle. -/
def step (s : Sys) : Ev → Sys
  | .startLoad => stepStartLoad s
  | .resolveLoad k found => stepResolveLoad s k found
  | .resolveInit k success => stepResolveInit s k success
  | .frame => stepFrame s

/-- The freshly mounted component: nothing active, no attempts, no calls. -/
def Sys.init : Sys :=
  { demoRef := none, nextId := 0, numAttempts := 0,
    attempt := fun _ => ⟨true, .finished⟩,
    destroys := fun _ => 0, renders := fun _ => 0 }

/-- Deliver a sequence of events. -/
def run (s : Sys) : List Ev → Sys
  | [] => s
  | e :: rest => run (step s e) rest

/-! ### Reachability invariant of the loader -/

/-- Instance `i` is out of play: its id is already allocated, it is not the
active instance, and no attempt is still awaiting its `init()`.  Once an
instance is retired nothing in the system can touch it again. -/
def Retired (i : ℕ) (s : Sys) : Prop :=
  i < s.nextId ∧ s.demoRef ≠ some i ∧
    ∀ k, (s.attempt k).stage ≠ Stage.awaitInit i

/-- Facts every reachable loader state satisfies: unstarted attempt slots are
inert; a pending (awaiting-init) attempt's instance is fresh, has received no
lifecycle calls, is not the active instance, and belongs to exactly one
attempt; the active instance id is in range; ids not yet allocated have no
calls recorded. -/
structure Inv (s : Sys) : Prop where
  bounded : ∀ k, s.numAttempts ≤ k → s.attempt k = ⟨true, .finished⟩
  pendingFresh : ∀ k i, (s.attempt k).stage = .awaitInit i → i < s.nextId
  pendingClean : ∀ k i, (s.attempt k).stage = .awaitInit i →
    s.destroys i = 0 ∧ s.renders i = 0
  pendingNotActive : ∀ k i, (s.attempt k).stage = .awaitInit i →
    s.demoRef ≠ some i
  pendingDistinct : ∀ k q i, (s.attempt k).stage = .awaitInit i →
    (s.attempt q).stage = .awaitInit i → k = q
  activeFresh : ∀ j, s.demoRef = some j → j < s.nextId
  freshClean : ∀ i, s.nextId ≤ i → s.destroys i = 0 ∧ s.renders i = 0

theorem inv_init : Inv Sys.init := by
  refine ⟨?_, ?_, ?_, ?_, ?_, ?_, ?_⟩ <;>
    simp [Sys.init]

theorem bump_ne (f : ℕ → ℕ) (i j : ℕ) (h : j ≠ i) : bump f i j = f j := by
  simp [bump, h]

theorem bump_eq (f : ℕ → ℕ) (i : ℕ) : bump f i i = f i + 1 := by
  simp [bump]

theorem inv_stepStartLoad (s : Sys) (h : Inv s) : Inv (stepStartLoad s) := by
  refine ⟨?_, ?_, ?_, ?_, ?_, ?_, ?_⟩
  · intro k hk
    have hk1 : s.numAttempts ≤ k := by
      simp [stepStartLoad] at hk; omega
    have hne : k ≠ s.numAttempts := by
      simp [stepStartLoad] at hk; omega
    simp [stepStartLoad, hne, h.bounded k hk1]
  · intro k i hst
    by_cases hke : k = s.numAttempts
    · simp [stepStartLoad, hke] at hst
    · simp [stepStartLoad, hke] at hst
      exact h.pendingFresh k i hst
  · intro k i hst
    by_cases hke : k = s.numAttempts
    · simp [stepStartLoad, hke] at hst
    · simp [stepStartLoad, hke] at hst
      have hold := h.pendingClean k i hst
      have hna := h.pendingNotActive k i hst
      cases hd : s.demoRef with
      | none => simpa [stepStartLoad, hd] using hold
      | some j =>
        have hji : i ≠ j := by
          intro he; exact hna (he ▸ hd)
        simp [stepStartLoad, hd, bump_ne _ _ _ hji, hold.1, hold.2]
  · intro k i hst
    simp [stepStartLoad]
  · intro k q i hk hq
    by_cases hke : k = s.numAttempts
    · simp [stepStartLoad, hke] at hk
    · by_cases hqe : q = s.numAttempts
      · simp [stepStartLoad, hqe] at hq
      · simp [stepStartLoad, hke] at hk
        simp [stepStartLoad, hqe] at hq
        exact h.pendingDistinct k q i hk hq
  · intro j hj
    simp [stepStartLoad] at hj
  · intro i hi
    have hi' : s.nextId ≤ i := by simpa [stepStartLoad] using hi
    have hold := h.freshClean i hi'
    cases hd : s.demoRef with
    | none => simpa [stepStartLoad, hd] using hold
    | some j =>
      have hji : i ≠ j := by
        have := h.activeFresh j hd; omega
      simp [stepStartLoad, hd, bump_ne _ _ _ hji, hold.1, hold.2]

theorem setStage_stage_ne (s : Sys) (k : ℕ) (st : Stage) (q : ℕ)
    (hq : q ≠ k) : setStage s k st q = s.attempt q := by
  simp [setStage, hq]

theorem setStage_stage_eq (s : Sys) (k : ℕ) (st : Stage) :
    (setStage s k st k).stage = st := by
  simp [setStage]

/-- A slot still pending after a stage was overwritten with `finished` was
already pending before, at the same index. -/
theorem setStage_finished_pending (s : Sys) (k0 q i : ℕ)
    (h : (setStage s k0 Stage.finished q).stage = Stage.awaitInit i) :
    q ≠ k0 ∧ (s.attempt q).stage = Stage.awaitInit i := by
  by_cases hq : q = k0
  · subst hq; simp [setStage] at h
  · exact ⟨hq, by simpa [setStage, hq] using h⟩

/-- Slots pending after a stage was overwritten with `awaitInit j`: either it
is the overwritten slot (carrying `j`), or an untouched already-pending slot. -/
theorem setStage_awaitInit_pending (s : Sys) (k0 : ℕ) (j : ℕ) (q i : ℕ)
    (h : (setStage s k0 (Stage.awaitInit j) q).stage = Stage.awaitInit i) :
    (q = k0 ∧ i = j) ∨ (q ≠ k0 ∧ (s.attempt q).stage = Stage.awaitInit i) := by
  by_cases hq : q = k0
  · subst hq
    left
    refine ⟨rfl, ?_⟩
    simp only [setStage, if_pos rfl] at h
    cases h
    rfl
  · right
    exact ⟨hq, by simpa [setStage, hq] using h⟩

/-- Finishing one attempt's stage preserves the invariant. -/
theorem inv_setFinished (s : Sys) (k0 : ℕ) (h : Inv s) :
    Inv { s with attempt := setStage s k0 Stage.finished } := by
  refine ⟨?_, ?_, ?_, ?_, ?_, ?_, ?_⟩ <;> dsimp only
  · intro k hk2
    by_cases hke : k = k0
    · subst hke
      simp [setStage, h.bounded k hk2]
    · simp [setStage, hke, h.bounded k hk2]
  · intro k i hst2
    exact h.pendingFresh k i (setStage_finished_pending s k0 k i hst2).2
  · intro k i hst2
    exact h.pendingClean k i (setStage_finished_pending s k0 k i hst2).2
  · intro k i hst2
    exact h.pendingNotActive k i (setStage_finished_pending s k0 k i hst2).2
  · intro k q i hst2 hst3
    exact h.pendingDistinct k q i
      (setStage_finished_pending s k0 k i hst2).2
      (setStage_finished_pending s k0 q i hst3).2
  · exact h.activeFresh
  · exact h.freshClean

theorem inv_stepResolveLoad (s : Sys) (k0 : ℕ) (found : Bool) (h : Inv s) :
    Inv (stepResolveLoad s k0 found) := by
  by_cases hk : k0 < s.numAttempts
  · cases hst : (s.attempt k0).stage with
    | awaitInit i =>
      unfold stepResolveLoad
      rw [if_pos hk, hst]
      exact h
    | finished =>
      unfold stepResolveLoad
      rw [if_pos hk, hst]
      exact h
    | awaitLoad =>
      by_cases hc : ((s.attempt k0).cancelled || !found) = true
      · have heq : stepResolveLoad s k0 found =
            { s with attempt := setStage s k0 .finished } := by
          unfold stepResolveLoad
          rw [if_pos hk, hst, if_pos hc]
        rw [heq]
        exact inv_setFinished s k0 h
      · have heq : stepResolveLoad s k0 found =
            { s with nextId := s.nextId + 1
                     attempt := setStage s k0 (.awaitInit s.nextId) } := by
          unfold stepResolveLoad
          rw [if_pos hk, hst, if_neg hc]
        rw [heq]
        refine ⟨?_, ?_, ?_, ?_, ?_, ?_, ?_⟩ <;> dsimp only
        · intro k hk2
          have hne : ¬k = k0 := by omega
          simp only [setStage, if_neg hne]
          exact h.bounded k hk2
        · intro k i hst2
          rcases setStage_awaitInit_pending s k0 s.nextId k i hst2 with
            ⟨_, hij⟩ | ⟨_, hold⟩
          · omega
          · have := h.pendingFresh k i hold
            omega
        · intro k i hst2
          rcases setStage_awaitInit_pending s k0 s.nextId k i hst2 with
            ⟨_, hij⟩ | ⟨_, hold⟩
          · exact hij ▸ h.freshClean s.nextId le_rfl
          · exact h.pendingClean k i hold
        · intro k i hst2
          rcases setStage_awaitInit_pending s k0 s.nextId k i hst2 with
            ⟨_, hij⟩ | ⟨_, hold⟩
          · intro hd
            have := h.activeFresh i hd
            omega
          · exact h.pendingNotActive k i hold
        · intro k q i hst2 hst3
          rcases setStage_awaitInit_pending s k0 s.nextId k i hst2 with
            ⟨hke, hij⟩ | ⟨hke, hold⟩
          · rcases setStage_awaitInit_pending s k0 s.nextId q i hst3 with
              ⟨hqe, _⟩ | ⟨hqe, hold'⟩
            · rw [hke, hqe]
            · have := h.pendingFresh q i hold'
              omega
          · rcases setStage_awaitInit_pending s k0 s.nextId q i hst3 with
              ⟨hqe, hij⟩ | ⟨hqe, hold'⟩
            · have := h.pendingFresh k i hold
              omega
            · exact h.pendingDistinct k q i hold hold'
        · intro j hj
          have := h.activeFresh j hj
          omega
        · intro i hi
          exact h.freshClean i (by omega)
  · unfold stepResolveLoad
    rw [if_neg hk]
    exact h

theorem inv_stepResolveInit (s : Sys) (k0 : ℕ) (success : Bool) (h : Inv s) :
    Inv (stepResolveInit s k0 success) := by
  by_cases hk : k0 < s.numAttempts
  · cases hst : (s.attempt k0).stage with
    | awaitLoad =>
      unfold stepResolveInit
      rw [if_pos hk, hst]
      exact h
    | finished =>
      unfold stepResolveInit
      rw [if_pos hk, hst]
      exact h
    | awaitInit i0 =>
      have hi0 : i0 < s.nextId := h.pendingFresh k0 i0 hst
      cases success with
      | false =>
        have heq : stepResolveInit s k0 false =
            { s with attempt := setStage s k0 .finished } := by
          unfold stepResolveInit
          rw [if_pos hk, hst]
          rfl
        rw [heq]
        exact inv_setFinished s k0 h
      | true =>
        by_cases hcan : (s.attempt k0).cancelled = true
        · have heq : stepResolveInit s k0 true =
              { s with attempt := setStage s k0 .finished
                       destroys := bump s.destroys i0 } := by
            unfold stepResolveInit
            rw [if_pos hk, hst]
            simp [hcan]
          rw [heq]
          refine ⟨?_, ?_, ?_, ?_, ?_, ?_, ?_⟩ <;> dsimp only
          · intro k hk2
            by_cases hke : k = k0
            · subst hke
              simp [setStage, h.bounded k hk2]
            · simp [setStage, hke, h.bounded k hk2]
          · intro k i hst2
            exact h.pendingFresh k i (setStage_finished_pending s k0 k i hst2).2
          · intro k i hst2
            obtain ⟨hke, hold⟩ := setStage_finished_pending s k0 k i hst2
            have hii0 : i ≠ i0 := by
              intro he
              exact hke (h.pendingDistinct k k0 i0 (he ▸ hold) hst)
            rw [bump_ne _ _ _ hii0]
            exact h.pendingClean k i hold
          · intro k i hst2
            exact h.pendingNotActive k i
              (setStage_finished_pending s k0 k i hst2).2
          · intro k q i hst2 hst3
            exact h.pendingDistinct k q i
              (setStage_finished_pending s k0 k i hst2).2
              (setStage_finished_pending s k0 q i hst3).2
          · exact h.activeFresh
          · intro i hi
            have hii0 : i ≠ i0 := by omega
            rw [bump_ne _ _ _ hii0]
            exact h.freshClean i hi
        · have heq : stepResolveInit s k0 true =
              { s with demoRef := some i0
                       attempt := setStage s k0 .finished } := by
            unfold stepResolveInit
            rw [if_pos hk, hst]
            simp [hcan]
          rw [heq]
          refine ⟨?_, ?_, ?_, ?_, ?_, ?_, ?_⟩ <;> dsimp only
          · intro k hk2
            by_cases hke : k = k0
            · subst hke
              simp [setStage, h.bounded k hk2]
            · simp [setStage, hke, h.bounded k hk2]
          · intro k i hst2
            exact h.pendingFresh k i (setStage_finished_pending s k0 k i hst2).2
          · intro k i hst2
            exact h.pendingClean k i (setStage_finished_pending s k0 k i hst2).2
          · intro k i hst2
            obtain ⟨hke, hold⟩ := setStage_finished_pending s k0 k i hst2
            intro hd
            have hii0 : i0 = i := by
              cases hd
              rfl
            exact hke (h.pendingDistinct k k0 i0 (hii0 ▸ hold) hst)
          · intro k q i hst2 hst3
            exact h.pendingDistinct k q i
              (setStage_finished_pending s k0 k i hst2).2
              (setStage_finished_pending s k0 q i hst3).2
          · intro j hj
            cases hj
            exact hi0
          · exact h.freshClean
  · unfold stepResolveInit
    rw [if_neg hk]
    exact h

theorem inv_stepFrame (s : Sys) (h : Inv s) : Inv (stepFrame s) := by
  cases hd : s.demoRef with
  | none =>
    unfold stepFrame
    rw [hd]
    exact h
  | some j =>
    have hj : j < s.nextId := h.activeFresh j hd
    have heq : stepFrame s = { s with renders := bump s.renders j } := by
      unfold stepFrame
      rw [hd]
    rw [heq]
    refine ⟨?_, ?_, ?_, ?_, ?_, ?_, ?_⟩ <;> dsimp only
    · exact h.bounded
    · exact h.pendingFresh
    · intro k i hst2
      have hna := h.pendingNotActive k i hst2
      have hij : i ≠ j := by
        intro he
        exact hna (he ▸ hd)
      rw [bump_ne _ _ _ hij]
      exact h.pendingClean k i hst2
    · exact h.pendingNotActive
    · exact h.pendingDistinct
    · exact h.activeFresh
    · intro i hi
      have hij : i ≠ j := by omega
      rw [bump_ne _ _ _ hij]
      exact h.freshClean i hi

theorem inv_step (s : Sys) (e : Ev) (h : Inv s) : Inv (step s e) := by
  cases e with
  | startLoad => exact inv_stepStartLoad s h
  | resolveLoad k found => exact inv_stepResolveLoad s k found h
  | resolveInit k success => exact inv_stepResolveInit s k success h
  | frame => exact inv_stepFrame s h

theorem inv_run (s : Sys) (evs : List Ev) (h : Inv s) : Inv (run s evs) := by
  induction evs generalizing s with
  | nil => exact h
  | cons e rest ih => exact ih (step s e) (inv_step s e h)

theorem retired_step (i : ℕ) (s : Sys) (e : Ev) (h : Retired i s) :
    Retired i (step s e) ∧ (step s e).destroys i = s.destroys i ∧
      (step s e).renders i = s.renders i := by
  obtain ⟨hfresh, hact, hpend⟩ := h
  cases e with
  | startLoad =>
    have hnew : ∀ k, ((stepStartLoad s).attempt k).stage ≠
        Stage.awaitInit i := by
      intro k
      by_cases hke : k = s.numAttempts
      · simp [stepStartLoad, hke]
      · simp only [stepStartLoad, if_neg hke]
        exact hpend k
    refine ⟨⟨hfresh, by simp [step, stepStartLoad], hnew⟩, ?_, rfl⟩
    cases hd : s.demoRef with
    | none => simp [step, stepStartLoad, hd]
    | some j =>
      have hji : i ≠ j := fun he => hact (he ▸ hd)
      simp [step, stepStartLoad, hd, bump_ne _ _ _ hji]
  | frame =>
    cases hd : s.demoRef with
    | none =>
      have heq : step s Ev.frame = s := by
        simp [step, stepFrame, hd]
      rw [heq]
      exact ⟨⟨hfresh, hact, hpend⟩, rfl, rfl⟩
    | some j =>
      have hji : i ≠ j := fun he => hact (he ▸ hd)
      have heq : step s Ev.frame = { s with renders := bump s.renders j } := by
        simp [step, stepFrame, hd]
      rw [heq]
      exact ⟨⟨hfresh, hact, hpend⟩, rfl, bump_ne _ _ _ hji⟩
  | resolveLoad k0 found =>
    by_cases hk : k0 < s.numAttempts
    · cases hst : (s.attempt k0).stage with
      | awaitInit j =>
        have heq : step s (Ev.resolveLoad k0 found) = s := by
          simp only [step, stepResolveLoad, if_pos hk, hst]
        rw [heq]
        exact ⟨⟨hfresh, hact, hpend⟩, rfl, rfl⟩
      | finished =>
        have heq : step s (Ev.resolveLoad k0 found) = s := by
          simp only [step, stepResolveLoad, if_pos hk, hst]
        rw [heq]
        exact ⟨⟨hfresh, hact, hpend⟩, rfl, rfl⟩
      | awaitLoad =>
        by_cases hc : ((s.attempt k0).cancelled || !found) = true
        · have heq : step s (Ev.resolveLoad k0 found) =
              { s with attempt := setStage s k0 .finished } := by
            simp only [step, stepResolveLoad, if_pos hk, hst, if_pos hc]
          rw [heq]
          refine ⟨⟨hfresh, hact, ?_⟩, rfl, rfl⟩
          intro k
          by_cases hke : k = k0
          · subst hke
            simp [setStage]
          · simp only [setStage, if_neg hke]
            exact hpend k
        · have heq : step s (Ev.resolveLoad k0 found) =
              { s with nextId := s.nextId + 1
                       attempt := setStage s k0 (.awaitInit s.nextId) } := by
            simp only [step, stepResolveLoad, if_pos hk, hst, if_neg hc]
          rw [heq]
          refine ⟨⟨by dsimp only; omega, hact, ?_⟩, rfl, rfl⟩
          intro k
          by_cases hke : k = k0
          · subst hke
            dsimp only
            simp only [setStage, if_pos rfl]
            intro hbad
            cases hbad
            omega
          · dsimp only
            simp only [setStage, if_neg hke]
            exact hpend k
    · have heq : step s (Ev.resolveLoad k0 found) = s := by
        simp only [step, stepResolveLoad, if_neg hk]
      rw [heq]
      exact ⟨⟨hfresh, hact, hpend⟩, rfl, rfl⟩
  | resolveInit k0 success =>
    by_cases hk : k0 < s.numAttempts
    · cases hst : (s.attempt k0).stage with
      | awaitLoad =>
        have heq : step s (Ev.resolveInit k0 success) = s := by
          simp only [step, stepResolveInit, if_pos hk, hst]
        rw [heq]
        exact ⟨⟨hfresh, hact, hpend⟩, rfl, rfl⟩
      | finished =>
        have heq : step s (Ev.resolveInit k0 success) = s := by
          simp only [step, stepResolveInit, if_pos hk, hst]
        rw [heq]
        exact ⟨⟨hfresh, hact, hpend⟩, rfl, rfl⟩
      | awaitInit j =>
        have hji : j ≠ i := by
          intro he
          exact hpend k0 (he ▸ hst)
        have hfin : ∀ q, (setStage s k0 Stage.finished q).stage ≠
            Stage.awaitInit i := by
          intro q
          by_cases hqe : q = k0
          · subst hqe
            simp [setStage]
          · simp only [setStage, if_neg hqe]
            exact hpend q
        cases success with
        | false =>
          have heq : step s (Ev.resolveInit k0 false) =
              { s with attempt := setStage s k0 .finished } := by
            simp only [step, stepResolveInit, if_pos hk, hst]
            rfl
          rw [heq]
          exact ⟨⟨hfresh, hact, hfin⟩, rfl, rfl⟩
        | true =>
          by_cases hcan : (s.attempt k0).cancelled = true
          · have heq : step s (Ev.resolveInit k0 true) =
                { s with attempt := setStage s k0 .finished
                         destroys := bump s.destroys j } := by
              simp only [step, stepResolveInit, if_pos hk, hst]
              simp [hcan]
            rw [heq]
            exact ⟨⟨hfresh, hact, hfin⟩,
              bump_ne _ _ _ (fun he => hji he.symm), rfl⟩
          · have heq : step s (Ev.resolveInit k0 true) =
                { s with demoRef := some j
                         attempt := setStage s k0 .finished } := by
              simp only [step, stepResolveInit, if_pos hk, hst]
              simp [hcan]
            rw [heq]
            refine ⟨⟨hfresh, ?_, hfin⟩, rfl, rfl⟩
            intro hbad
            cases hbad
            exact hji rfl
    · have heq : step s (Ev.resolveInit k0 success) = s := by
        simp only [step, stepResolveInit, if_neg hk]
      rw [heq]
      exact ⟨⟨hfresh, hact, hpend⟩, rfl, rfl⟩

theorem retired_run (i : ℕ) (s : Sys) (evs : List Ev) (h : Retired i s) :
    Retired i (run s evs) ∧ (run s evs).destroys i = s.destroys i ∧
      (run s evs).renders i = s.renders i := by
  induction evs generalizing s with
  | nil => exact ⟨h, rfl, rfl⟩
  | cons e rest ih =>
    obtain ⟨h1, hd1, hr1⟩ := retired_step i s e h
    obtain ⟨h2, hd2, hr2⟩ := ih (step s e) h1
    exact ⟨h2, hd2.trans hd1, hr2.trans hr1⟩

/-- Resuming the `init()` of a *cancelled* attempt destroys its constructed
instance (for the first and only time) and retires it. -/
theorem cancelled_resolveInit_retires (s : Sys) (k0 i0 : ℕ) (h : Inv s)
    (hst : (s.attempt k0).stage = Stage.awaitInit i0)
    (hc : (s.attempt k0).cancelled = true) :
    Retired i0 (step s (Ev.resolveInit k0 true)) ∧
    (step s (Ev.resolveInit k0 true)).destroys i0 = 1 ∧
    (step s (Ev.resolveInit k0 true)).renders i0 = 0 := by
  have hk : k0 < s.numAttempts := by
    by_contra hk
    have := h.bounded k0 (by omega)
    rw [this] at hst
    simp at hst
  have hclean := h.pendingClean k0 i0 hst
  have hfresh := h.pendingFresh k0 i0 hst
  have hact := h.pendingNotActive k0 i0 hst
  simp only [step, stepResolveInit, if_pos hk, hst, hc, if_true, if_pos rfl]
  refine ⟨⟨hfresh, hact, ?_⟩, ?_, hclean.2⟩
  · intro q
    by_cases hqe : q = k0
    · subst hqe
      simp [setStage]
    · simp only [setStage, if_neg hqe]
      intro hbad
      exact hqe (h.pendingDistinct q k0 i0 hbad hst)
  · rw [bump_eq, hclean.1]

/-- Event `resolveLoad` never changes which instance is active. -/
theorem stepResolveLoad_demoRef (s : Sys) (k : ℕ) (found : Bool) :
    (stepResolveLoad s k found).demoRef = s.demoRef := by
  unfold stepResolveLoad
  split
  · split <;> first
      | rfl
      | (split <;> rfl)
  · rfl

/-- A rejected `init()` never changes which instance is active (the `catch`
only logs). -/
theorem stepResolveInit_false_demoRef (s : Sys) (k : ℕ) :
    (stepResolveInit s k false).demoRef = s.demoRef := by
  unfold stepResolveInit
  split
  · split <;> rfl
  · rfl

/-! ## Claim theorems -/

/-- C5: the per-frame context's `deltaTime` is the minimum of the raw elapsed
time in seconds and 0.1; every raw elapsed duration — a 5000 ms stall
included — yields a `deltaTime` ≤ 0.1 delivered to `render()`. -/
theorem contextDeltaTime_clamped :
    (∀ nowMs lastMs : ℚ, contextDeltaTime nowMs lastMs ≤ 1/10) ∧
    contextDeltaTime 5000 0 = 1/10 := by
  constructor
  · intro nowMs lastMs
    exact min_le_right _ _
  · norm_num [contextDeltaTime, min_def]

/-- C4: starting from `currentFbo = 0`, each simulation iteration reads the
FBO at the current index and writes its complement (read and write are never
equal), the flip makes the index after `n` swaps equal `n % 2`, the index
after a swap is exactly the index just written, and after 3 swaps the
displayed FBO is the one written at step 3. -/
theorem pingPong_double_buffer_alternation :
    (∀ c : ℕ, readFboIndex c ≠ writeFboIndex c) ∧
    (∀ n : ℕ, readFboIndex (currentFboAfter n) = currentFboAfter n) ∧
    (∀ n : ℕ, currentFboAfter (n + 1) = writeFboIndex (currentFboAfter n)) ∧
    (∀ n : ℕ, currentFboAfter n = n % 2) ∧
    displayFboIndex (currentFboAfter 3) = writeFboIndex (currentFboAfter 2) := by
  have hmod : ∀ n : ℕ, currentFboAfter n = n % 2 := by
    intro n
    induction n with
    | zero => rfl
    | succ m ih =>
      show swapFbo (currentFboAfter m) = (m + 1) % 2
      rw [ih]
      unfold swapFbo
      omega
  refine ⟨?_, ?_, ?_, hmod, by decide⟩
  · intro c
    by_cases hc : c = 0 <;> simp [readFboIndex, writeFboIndex, hc]
  · intro n
    rw [hmod n]
    rcases Nat.mod_two_eq_zero_or_one n with h | h <;> rw [h] <;> rfl
  · intro n
    rcases Nat.mod_two_eq_zero_or_one n with h | h
    · have h1 : (n + 1) % 2 = 1 := by omega
      rw [hmod n, hmod (n + 1), h, h1]
      rfl
    · have h1 : (n + 1) % 2 = 0 := by omega
      rw [hmod n, hmod (n + 1), h, h1]
      rfl

/-- C8 counterexample: `getResolutionMultiplier('ultra')` reads
`window.devicePixelRatio` at call time, so two evaluations on the same level
under different ambient device-pixel ratios disagree — the resolver is not
independent of ambient mutable state. -/
theorem ultra_multiplier_reads_ambient_dpr :
    getResolutionMultiplier ⟨true, 1⟩ ⟨true, 1⟩ QualityLevel.ultra ≠
      getResolutionMultiplier ⟨true, 1⟩ ⟨true, 2⟩ QualityLevel.ultra := by
  decide

/-- C8 (amended): for the levels `low`, `medium` and `high` the resolver is a
pure, deterministic mapping — `getQualityPreset` and
`getResolutionMultiplier` are independent of both the module-load and the
call-time browser environment; only `ultra` depends on
`window.devicePixelRatio`. -/
theorem quality_resolver_pure_below_ultra
    (loadEnv loadEnv' callEnv callEnv' : BrowserEnv) (level : QualityLevel)
    (h : level ≠ QualityLevel.ultra) :
    getQualityPreset loadEnv level = getQualityPreset loadEnv' level ∧
    getResolutionMultiplier loadEnv callEnv level =
      getResolutionMultiplier loadEnv' callEnv' level := by
  cases level with
  | ultra => exact absurd rfl h
  | low => exact ⟨rfl, by simp [getResolutionMultiplier, QUALITY_PRESETS]⟩
  | medium => exact ⟨rfl, by simp [getResolutionMultiplier, QUALITY_PRESETS]⟩
  | high => exact ⟨rfl, by simp [getResolutionMultiplier, QUALITY_PRESETS]⟩

theorem quality_resolver_pure_below_ultra_witness :
    QualityLevel.low ≠ QualityLevel.ultra ∧
    (getQualityPreset ⟨true, 1⟩ QualityLevel.low =
        getQualityPreset ⟨false, 3⟩ QualityLevel.low ∧
     getResolutionMultiplier ⟨true, 1⟩ ⟨true, 2⟩ QualityLevel.low =
        getResolutionMultiplier ⟨false, 3⟩ ⟨true, 4⟩ QualityLevel.low) :=
  ⟨by decide, quality_resolver_pure_below_ultra _ _ _ _ _ (by decide)⟩

theorem beginFrame_hasTimer (s : StatsTracker) :
    s.beginFrame.hasTimer = s.hasTimer := by
  unfold StatsTracker.beginFrame
  dsimp only
  split <;> rfl

theorem endFrame_hasTimer (s : StatsTracker) (nowMs : ℚ)
    (available disjoint : Bool) (timeElapsedNs : ℚ) :
    (s.endFrame nowMs available disjoint timeElapsedNs).hasTimer =
      s.hasTimer := by
  unfold StatsTracker.endFrame
  dsimp only
  repeat' split
  all_goals rfl

theorem recordDrawCall_hasTimer (s : StatsTracker) (tri inst : ℕ) :
    (s.recordDrawCall tri inst).hasTimer = s.hasTimer := by
  unfold StatsTracker.recordDrawCall
  dsimp only
  split <;> rfl

theorem applyStatsOps_hasTimer (s : StatsTracker) (ops : List StatsOp) :
    (applyStatsOps s ops).hasTimer = s.hasTimer := by
  induction ops generalizing s with
  | nil => rfl
  | cons op rest ih =>
    cases op with
    | beginFrame =>
      rw [applyStatsOps, ih, beginFrame_hasTimer]
    | endFrame now av dj t =>
      rw [applyStatsOps, ih, endFrame_hasTimer]
    | recordDrawCall tri inst =>
      rw [applyStatsOps, ih, recordDrawCall_hasTimer]
    | recordParticles n =>
      rw [applyStatsOps, ih]
      rfl

/-- C9: when the `EXT_disjoint_timer_query_webgl2` extension is absent at
construction, `getStats()` reports `gpuTime` as absent (`none`, i.e.
`undefined`) after every sequence of frames and record calls — never `0`, so
"unmeasured" stays distinguishable from "0 ms". -/
theorem gpuTime_absent_without_timer_extension (ops : List StatsOp) :
    ((applyStatsOps (StatsTracker.mk0 false) ops).getStats).gpuTime = none := by
  have h : (applyStatsOps (StatsTracker.mk0 false) ops).hasTimer = false := by
    rw [applyStatsOps_hasTimer]
    rfl
  unfold StatsTracker.getStats
  rw [h]
  rfl

theorem beginFrame_instances (s : StatsTracker) :
    s.beginFrame.instances = 0 := by
  unfold StatsTracker.beginFrame
  dsimp only
  split <;> rfl

theorem foldl_noninstanced_draws (tris : List ℕ) (s : StatsTracker)
    (h : s.instances = 0) :
    (tris.foldl (fun st t => st.recordDrawCall t 1) s).instances = 0 := by
  induction tris generalizing s with
  | nil => exact h
  | cons t rest ih =>
    rw [List.foldl_cons]
    apply ih
    simpa [StatsTracker.recordDrawCall] using h

/-- C10: `getStats()` reports `instances` (resp. `particles`) as absent
exactly when the per-frame recorded count is zero; `recordDrawCall`
accumulates into `instances` only when `instanceCount > 1`; hence a frame of
non-instanced draws (`instanceCount = 1`) always reports `instances` as
absent rather than 0. -/
theorem instances_particles_absent_when_zero :
    (∀ s : StatsTracker, (s.getStats).instances = none ↔ s.instances = 0) ∧
    (∀ s : StatsTracker, (s.getStats).particles = none ↔ s.particles = 0) ∧
    (∀ (s : StatsTracker) (tri inst : ℕ),
      (s.recordDrawCall tri inst).instances =
        if 1 < inst then s.instances + inst else s.instances) ∧
    (∀ (s : StatsTracker) (tris : List ℕ),
      ((tris.foldl (fun st t => st.recordDrawCall t 1)
        s.beginFrame).getStats).instances = none) := by
  have habs : ∀ s : StatsTracker, (s.getStats).instances = none ↔
      s.instances = 0 := by
    intro s
    unfold StatsTracker.getStats
    dsimp only
    by_cases h : 0 < s.instances
    · rw [if_pos h]
      constructor
      · intro hbad
        cases hbad
      · intro h0
        omega
    · rw [if_neg h]
      constructor
      · intro _
        omega
      · intro _
        rfl
  refine ⟨habs, ?_, ?_, ?_⟩
  · intro s
    unfold StatsTracker.getStats
    dsimp only
    by_cases h : 0 < s.particles
    · rw [if_pos h]
      constructor
      · intro hbad
        cases hbad
      · intro h0
        omega
    · rw [if_neg h]
      constructor
      · intro _
        omega
      · intro _
        rfl
  · intro s tri inst
    unfold StatsTracker.recordDrawCall
    dsimp only
    split <;> rfl
  · intro s tris
    rw [habs]
    exact foldl_noninstanced_draws tris s.beginFrame (beginFrame_instances s)

/-- C6 (failing-input evaluation): when the vertex shader compiles but the
fragment shader does not, `createProgram` raises the compile error carrying
the fragment stage's log while one shader object — the successfully compiled
vertex shader — is still alive: it is never deleted on this path, so a GPU
object leaks. -/
theorem createProgram_leaks_vertex_on_fragment_failure :
    createProgram
      { shaderCreateOk := true, vertexCompileOk := true,
        fragmentCompileOk := false, vertexLog := "",
        fragmentLog := "0:1: syntax error", programCreateOk := true,
        linkOk := true, linkLog := "" } =
      Except.error ("Shader compilation error: 0:1: syntax error",
        { shadersAlive := 1, programsAlive := 0 }) := by
  rfl

/-- C7 counterexample: with an 800×600 canvas and the portal demo's 512-pixel
FBO alive, a resize to a (0,0) container rect is not deferred — it
reallocates the FBO's texture storage (to 0×0) at that very resize, instead
of leaving resources untouched until a later non-zero resize. -/
theorem zero_resize_reallocates_portal_fbo :
    (handleResize ⟨true, 1⟩ ⟨true, 1⟩ QualityLevel.high 1 0 0
      { canvasWidth := 800, canvasHeight := 600,
        demo := { fboSize := 512, hasFbo := true, fboWidth := 512,
                  fboHeight := 512, reallocCount := 0 } }).demo.reallocCount
      = 1 ∧
    (handleResize ⟨true, 1⟩ ⟨true, 1⟩ QualityLevel.high 1 0 0
      { canvasWidth := 800, canvasHeight := 600,
        demo := { fboSize := 512, hasFbo := true, fboWidth := 512,
                  fboHeight := 512, reallocCount := 0 } }).demo.fboSize
      = 0 := by
  have hport : portalResize
      { fboSize := 512, hasFbo := true, fboWidth := 512, fboHeight := 512,
        reallocCount := 0 } 0 0 =
      { fboSize := 0, hasFbo := true, fboWidth := 0, fboHeight := 0,
        reallocCount := 1 } := by
    unfold portalResize
    rw [if_pos]
    · rfl
    · exact ⟨by simp [absDiff], rfl⟩
  have hfloor : floorNat
      (0 * min (getResolutionMultiplier ⟨true, 1⟩ ⟨true, 1⟩
        QualityLevel.high) 1) = 0 := by
    simp [floorNat]
  have heq : handleResize ⟨true, 1⟩ ⟨true, 1⟩ QualityLevel.high 1 0 0
      { canvasWidth := 800, canvasHeight := 600,
        demo := { fboSize := 512, hasFbo := true, fboWidth := 512,
                  fboHeight := 512, reallocCount := 0 } } =
      { canvasWidth := 0, canvasHeight := 0,
        demo := portalResize
          { fboSize := 512, hasFbo := true, fboWidth := 512, fboHeight := 512,
            reallocCount := 0 } 0 0 } := by
    unfold handleResize
    dsimp only
    rw [hfloor, if_pos (Or.inl (by decide))]
  rw [heq, hport]
  exact ⟨rfl, rfl⟩

/-- C7 (amended): a resize to a (0,0) rect never throws (the path is total
and branch-free of failures) and is applied immediately: the canvas becomes
0×0 and, whenever the portal demo's FBO exists with a stored size over 100,
its render-target storage is reallocated at size 0 during that same resize
rather than at the next non-zero one. -/
theorem handleResize_zero_rect_reallocates (loadEnv callEnv : BrowserEnv)
    (q : QualityLevel) (windowDpr : ℚ) (st : CanvasState)
    (hnz : st.canvasWidth ≠ 0 ∨ st.canvasHeight ≠ 0)
    (hfbo : st.demo.hasFbo = true) (hsize : 100 < st.demo.fboSize) :
    (handleResize loadEnv callEnv q windowDpr 0 0 st).canvasWidth = 0 ∧
    (handleResize loadEnv callEnv q windowDpr 0 0 st).canvasHeight = 0 ∧
    (handleResize loadEnv callEnv q windowDpr 0 0 st).demo.reallocCount =
      st.demo.reallocCount + 1 ∧
    (handleResize loadEnv callEnv q windowDpr 0 0 st).demo.fboSize = 0 := by
  have hport : portalResize st.demo 0 0 =
      { st.demo with fboSize := 0, fboWidth := 0, fboHeight := 0,
                     reallocCount := st.demo.reallocCount + 1 } := by
    unfold portalResize
    rw [if_pos]
    · simp
    · refine ⟨?_, hfbo⟩
      simpa [absDiff] using hsize
  have hfloor : floorNat
      (0 * min (getResolutionMultiplier loadEnv callEnv q) windowDpr) = 0 := by
    simp [floorNat]
  have heq : handleResize loadEnv callEnv q windowDpr 0 0 st =
      { canvasWidth := 0, canvasHeight := 0,
        demo := portalResize st.demo 0 0 } := by
    unfold handleResize
    dsimp only
    rw [hfloor, if_pos hnz]
  rw [heq, hport]
  exact ⟨rfl, rfl, rfl, rfl⟩

theorem handleResize_zero_rect_reallocates_witness :
    (handleResize ⟨true, 1⟩ ⟨true, 1⟩ QualityLevel.medium 2 0 0
      { canvasWidth := 640, canvasHeight := 480,
        demo := { fboSize := 512, hasFbo := true, fboWidth := 512,
                  fboHeight := 512, reallocCount := 3 } }).demo.reallocCount
      = 4 ∧
    (handleResize ⟨true, 1⟩ ⟨true, 1⟩ QualityLevel.medium 2 0 0
      { canvasWidth := 640, canvasHeight := 480,
        demo := { fboSize := 512, hasFbo := true, fboWidth := 512,
                  fboHeight := 512, reallocCount := 3 } }).demo.fboSize
      = 0 :=
  ⟨(handleResize_zero_rect_reallocates ⟨true, 1⟩ ⟨true, 1⟩ QualityLevel.medium
      2 _ (Or.inl (by decide)) (by decide) (by decide)).2.2.1,
   (handleResize_zero_rect_reallocates ⟨true, 1⟩ ⟨true, 1⟩ QualityLevel.medium
      2 _ (Or.inl (by decide)) (by decide) (by decide)).2.2.2⟩

/-- C1 counterexample: load instance 0, attach it, then request a new load.
Already at that moment — while the new attempt is still awaiting
`loadDemo`, before any new `init()` — the previous instance has received its
`destroy()`.  Continuing with the new instance's `init()` failing leaves no
active instance: the previous instance does not remain active and never
renders again.  This falsifies "destroy() only after the new init()
succeeds" and "on init() failure the previous instance stays active". -/
theorem previous_destroyed_before_new_init :
    ((run Sys.init [Ev.startLoad, Ev.resolveLoad 0 true, Ev.resolveInit 0 true,
        Ev.startLoad]).destroys 0 = 1) ∧
    (((run Sys.init [Ev.startLoad, Ev.resolveLoad 0 true, Ev.resolveInit 0 true,
        Ev.startLoad]).attempt 1).stage = Stage.awaitLoad) ∧
    ((run Sys.init [Ev.startLoad, Ev.resolveLoad 0 true, Ev.resolveInit 0 true,
        Ev.startLoad, Ev.resolveLoad 1 true, Ev.resolveInit 1 false,
        Ev.frame]).demoRef = none) ∧
    ((run Sys.init [Ev.startLoad, Ev.resolveLoad 0 true, Ev.resolveInit 0 true,
        Ev.startLoad, Ev.resolveLoad 1 true, Ev.resolveInit 1 false,
        Ev.frame]).renders 0 = 0) := by
  refine ⟨?_, ?_, ?_, ?_⟩ <;> decide

/-- C1 (amended): a new load request destroys the previously active instance
immediately, during the effect cleanup that precedes the new `initDemo` — not
after the new instance's `init()` succeeds; and if the new instance's
`init()` then fails, no instance is active (the previous one does not remain
and nothing renders). -/
theorem startLoad_destroys_active_immediately (s : Sys) (i : ℕ)
    (h : s.demoRef = some i) :
    (step s Ev.startLoad).destroys i = s.destroys i + 1 ∧
    (step s Ev.startLoad).demoRef = none ∧
    (run (step s Ev.startLoad)
      [Ev.resolveLoad s.numAttempts true,
       Ev.resolveInit s.numAttempts false]).demoRef = none := by
  refine ⟨?_, rfl, ?_⟩
  · show (stepStartLoad s).destroys i = s.destroys i + 1
    unfold stepStartLoad
    rw [h]
    dsimp only
    rw [bump_eq]
  · show (stepResolveInit (stepResolveLoad (stepStartLoad s)
      s.numAttempts true) s.numAttempts false).demoRef = none
    rw [stepResolveInit_false_demoRef, stepResolveLoad_demoRef]
    rfl

theorem startLoad_destroys_active_immediately_witness :
    ((run Sys.init [Ev.startLoad, Ev.resolveLoad 0 true,
        Ev.resolveInit 0 true]).demoRef = some 0) ∧
    ((step (run Sys.init [Ev.startLoad, Ev.resolveLoad 0 true,
        Ev.resolveInit 0 true]) Ev.startLoad).destroys 0 =
      (run Sys.init [Ev.startLoad, Ev.resolveLoad 0 true,
        Ev.resolveInit 0 true]).destroys 0 + 1) ∧
    ((run (step (run Sys.init [Ev.startLoad, Ev.resolveLoad 0 true,
        Ev.resolveInit 0 true]) Ev.startLoad)
      [Ev.resolveLoad (run Sys.init [Ev.startLoad, Ev.resolveLoad 0 true,
        Ev.resolveInit 0 true]).numAttempts true,
       Ev.resolveInit (run Sys.init [Ev.startLoad, Ev.resolveLoad 0 true,
        Ev.resolveInit 0 true]).numAttempts false]).demoRef = none) :=
  ⟨by decide,
   (startLoad_destroys_active_immediately _ 0 (by decide)).1,
   (startLoad_destroys_active_immediately _ 0 (by decide)).2.2⟩

/-- C2: if a load is cancelled by a second request while its `init()` is
still pending (its attempt is flagged `cancelled` while awaiting init), then
once that `init()` fulfils, the constructed instance has received exactly one
`destroy()`, zero `render()` calls, and is never the active instance — at
every later point of every continuation. -/
theorem stale_init_destroyed_once_never_rendered
    (evs tail : List Ev) (k i : ℕ)
    (hst : ((run Sys.init evs).attempt k).stage = Stage.awaitInit i)
    (hc : ((run Sys.init evs).attempt k).cancelled = true) :
    (run (step (run Sys.init evs) (Ev.resolveInit k true)) tail).destroys i
      = 1 ∧
    (run (step (run Sys.init evs) (Ev.resolveInit k true)) tail).renders i
      = 0 ∧
    (run (step (run Sys.init evs) (Ev.resolveInit k true)) tail).demoRef
      ≠ some i := by
  have hInv := inv_run Sys.init evs inv_init
  obtain ⟨hret, hd1, hr1⟩ :=
    cancelled_resolveInit_retires (run Sys.init evs) k i hInv hst hc
  obtain ⟨hret2, hd2, hr2⟩ :=
    retired_run i (step (run Sys.init evs) (Ev.resolveInit k true)) tail hret
  exact ⟨hd2.trans hd1, hr2.trans hr1, hret2.2.1⟩

theorem stale_init_destroyed_once_never_rendered_witness :
    (((run Sys.init [Ev.startLoad, Ev.resolveLoad 0 true,
        Ev.startLoad]).attempt 0).stage = Stage.awaitInit 0) ∧
    (((run Sys.init [Ev.startLoad, Ev.resolveLoad 0 true,
        Ev.startLoad]).attempt 0).cancelled = true) ∧
    ((run (step (run Sys.init [Ev.startLoad, Ev.resolveLoad 0 true,
        Ev.startLoad]) (Ev.resolveInit 0 true)) [Ev.frame]).destroys 0 = 1 ∧
     (run (step (run Sys.init [Ev.startLoad, Ev.resolveLoad 0 true,
        Ev.startLoad]) (Ev.resolveInit 0 true)) [Ev.frame]).renders 0 = 0 ∧
     (run (step (run Sys.init [Ev.startLoad, Ev.resolveLoad 0 true,
        Ev.startLoad]) (Ev.resolveInit 0 true)) [Ev.frame]).demoRef
       ≠ some 0) :=
  ⟨by decide, by decide,
   stale_init_destroyed_once_never_rendered
     [Ev.startLoad, Ev.resolveLoad 0 true, Ev.startLoad] [Ev.frame] 0 0
     (by decide) (by decide)⟩

/-- C3: the active instance is a single nullable reference, so at most one
instance is active at any time; and in any single frame, at most one
instance's `render()` count changes — any two instances whose counts change
in that frame are the same instance. -/
theorem frame_render_exclusive (s : Sys) (i j : ℕ) :
    ((s.demoRef = some i ∧ s.demoRef = some j) → i = j) ∧
    (((step s Ev.frame).renders i ≠ s.renders i ∧
      (step s Ev.frame).renders j ≠ s.renders j) → i = j) := by
  constructor
  · rintro ⟨hi, hj⟩
    rw [hi] at hj
    cases hj
    rfl
  · rintro ⟨hi, hj⟩
    cases hd : s.demoRef with
    | none =>
      exfalso
      apply hi
      show (stepFrame s).renders i = s.renders i
      unfold stepFrame
      rw [hd]
    | some m =>
      have heq : step s Ev.frame = { s with renders := bump s.renders m } := by
        show stepFrame s = _
        unfold stepFrame
        rw [hd]
      rw [heq] at hi hj
      dsimp only at hi hj
      have h1 : i = m := by
        by_contra hne
        exact hi (bump_ne _ _ _ hne)
      have h2 : j = m := by
        by_contra hne
        exact hj (bump_ne _ _ _ hne)
      rw [h1, h2]

theorem frame_render_exclusive_witness :
    ((step (run Sys.init [Ev.startLoad, Ev.resolveLoad 0 true,
        Ev.resolveInit 0 true]) Ev.frame).renders 0 ≠
      (run Sys.init [Ev.startLoad, Ev.resolveLoad 0 true,
        Ev.resolveInit 0 true]).renders 0) ∧ (0 : ℕ) = 0 := by
  have h : (step (run Sys.init [Ev.startLoad, Ev.resolveLoad 0 true,
      Ev.resolveInit 0 true]) Ev.frame).renders 0 ≠
      (run Sys.init [Ev.startLoad, Ev.resolveLoad 0 true,
        Ev.resolveInit 0 true]).renders 0 := by decide
  exact ⟨h, (frame_render_exclusive _ 0 0).2 ⟨h, h⟩⟩

end WebglShowcase
